import Mathlib

/-!
Shallow embedding of the peer-session and bootstrap-handshake core of the
crust connection manager (`src/net/peer/mod.rs` and
`src/net/peer/connect/bootstrap/try_peer.rs`).

Time is modelled as `Nat` milliseconds.  The underlying framed stream
(`PaStream`) is modelled by its observable behaviour: a list of read-side
events for the stream half, and a function from handed frames to an
acceptance result for the sink half.  Opaque foreign error payloads
(`PaStreamReadError`, `PaStreamWriteError`, io errors, ...) are modelled
as `Nat`.
-/

namespace Crust

/-- Constant `INACTIVITY_TIMEOUT_MS` from `src/net/peer/mod.rs` (non-test value). -/
def INACTIVITY_TIMEOUT_MS : Nat := 120000

/-- Constant `HEARTBEAT_PERIOD_MS` from `src/net/peer/mod.rs` (non-test value). -/
def HEARTBEAT_PERIOD_MS : Nat := 20000

/-- Enumeration `CrustUser`: the role recorded on a peer session. -/
inductive CrustUser where
  | Node
  | Client
deriving DecidableEq, Repr

/-- Enumeration `PeerMsg` from `src/net/peer/mod.rs`: the frame type of a post-handshake
session. -/
inductive PeerMsg where
  | HeartBeat
  | Data (bytes : List Nat)
deriving DecidableEq, Repr

/-- Little-endian base-256 encoding of `n` into exactly `k` bytes
(truncating at `256 ^ k`). -/
def natLE : Nat → Nat → List Nat
  | 0, _ => []
  | k + 1, n => n % 256 :: natLE k (n / 256)

/-- Little-endian base-256 decoding of the first `k` bytes of a list,
returning the value and the remaining bytes. -/
def readNatLE : Nat → List Nat → Option (Nat × List Nat)
  | 0, rest => some (0, rest)
  | _ + 1, [] => none
  | k + 1, b :: rest => (readNatLE k rest).map fun p => (b + 256 * p.1, p.2)

/-- Modelled from the spec: the wire serialisation of a `PeerMsg` is done by
the external `maidsafe_utilities::serialisation` crate (not part of this
repository).  Per the spec's wire-format section, the variant discriminant is
the leading field of the serialised form and the `Data` payload follows with
its length.  We model the discriminant as a 4-byte little-endian tag and the
payload length as an 8-byte little-endian count. -/
def serialise : PeerMsg → List Nat
  | PeerMsg.HeartBeat => natLE 4 0
  | PeerMsg.Data bs => natLE 4 1 ++ natLE 8 bs.length ++ bs

/-- Modelled from the spec: deserialisation of a `PeerMsg`, the inverse
direction of [serialise], done by the external
`maidsafe_utilities::serialisation` crate.  Returns `none` on malformed
input. -/
def deserialise (bytes : List Nat) : Option PeerMsg :=
  match bytes with
  | 0 :: 0 :: 0 :: 0 :: rest =>
      if rest = [] then some PeerMsg.HeartBeat else none
  | 1 :: 0 :: 0 :: 0 :: rest =>
      match readNatLE 8 rest with
      | none => none
      | some (len, payload) =>
          if payload.length = len then some (PeerMsg.Data payload) else none
  | _ => none

theorem readNatLE_natLE (k : Nat) (n : Nat) (rest : List Nat) :
    readNatLE k (natLE k n ++ rest) = some (n % 256 ^ k, rest) := by
  induction k generalizing n with
  | zero => simp [natLE, readNatLE, Nat.mod_one]
  | succ k ih =>
      simp only [natLE, List.cons_append, readNatLE]
      rw [show (natLE k (n / 256)).append rest = natLE k (n / 256) ++ rest from rfl,
        ih (n / 256)]
      have h256 : (256 : Nat) ^ (k + 1) = 256 * 256 ^ k := by ring
      simp only [h256, Nat.mod_mul]
      rfl

theorem deserialise_serialise (m : PeerMsg) (h : ∀ bs, m = PeerMsg.Data bs → bs.length < 256 ^ 8) :
    deserialise (serialise m) = some m := by
  cases m with
  | HeartBeat => simp [serialise, deserialise, natLE]
  | Data bs =>
      have hlen : bs.length < 256 ^ 8 := h bs rfl
      have h4 : natLE 4 1 = [1, 0, 0, 0] := rfl
      simp only [serialise, h4, List.cons_append, List.nil_append]
      simp only [deserialise]
      rw [readNatLE_natLE 8 bs.length bs]
      simp only [Nat.mod_eq_of_lt hlen, if_pos rfl, if_true]

/-- Enumeration `PeerError` from `src/net/peer/mod.rs`.  Foreign error payloads are
modelled as `Nat`. -/
inductive PeerError where
  | Destroyed
  | Serialisation (e : Nat)
  | Io (e : Nat)
  | Read (e : Nat)
  | Write (e : Nat)
  | InactivityTimeout
  | Encrypt (e : Nat)
  | Decrypt (e : Nat)
  | Deserialize (e : Nat)
deriving DecidableEq, Repr

/-- One observable read-side event of the underlying `PaStream`: a raw frame,
graceful end-of-stream (`Ok(Ready(None))`), or a read error.  A poll of the
stream after the listed events are exhausted returns `NotReady`. -/
inductive StreamEvent where
  | frame (bytes : List Nat)
  | eos
  | err (e : Nat)
deriving DecidableEq, Repr

/-- The sink half of the underlying `PaStream`: the outcome of
`stream.start_send(msg)` for a handed frame. -/
inductive SinkResult where
  | ready
  | notReady
  | error (e : Nat)
deriving DecidableEq, Repr

/-- The `Peer` session state from `src/net/peer/mod.rs`: remote id, role,
`last_send_time`, and the two timer deadlines (`Timeout`s are modelled by
their absolute deadline in ms). -/
structure Peer where
  their_uid : Nat
  kind : CrustUser
  last_send_time : Nat
  send_heartbeat_timeout : Nat
  recv_heartbeat_timeout : Nat
deriving DecidableEq, Repr

/-- Function `from_handshaken_stream` from `src/net/peer/mod.rs`: build a `Peer` at
time `now` with the send-heartbeat timer set to `now + HEARTBEAT_PERIOD_MS`
and the recv-inactivity timer set to `now + INACTIVITY_TIMEOUT_MS`. -/
def from_handshaken_stream (now : Nat) (their_uid : Nat) (kind : CrustUser) : Peer :=
  { their_uid := their_uid
    kind := kind
    last_send_time := now
    send_heartbeat_timeout := now + HEARTBEAT_PERIOD_MS
    recv_heartbeat_timeout := now + INACTIVITY_TIMEOUT_MS }

/-- Method `Peer::poll_heartbeat` from `src/net/peer/mod.rs`.  While the
send-heartbeat timer has fired (`deadline ≤ now`), reset it to
`last_send_time + HEARTBEAT_PERIOD_MS`; if additionally
`now − last_send_time ≥ HEARTBEAT_PERIOD_MS`, set `last_send_time := now` and
hand one serialised `HeartBeat` frame to the stream's sink, discarding the
sink's answer (`let _ = self.stream.start_send(msg)`).  Returns the updated
peer and the frames handed to the sink, in order. -/
def Peer.poll_heartbeat (now : Nat) (sink : List Nat → SinkResult) (p : Peer) :
    Peer × List (List Nat) :=
  if h1 : p.send_heartbeat_timeout ≤ now then
    let p1 : Peer := { p with send_heartbeat_timeout := p.last_send_time + HEARTBEAT_PERIOD_MS }
    if h2 : HEARTBEAT_PERIOD_MS ≤ now - p.last_send_time then
      let msg := serialise PeerMsg.HeartBeat
      let _ := sink msg
      let p2 : Peer := { p1 with last_send_time := now }
      let rec_out := Peer.poll_heartbeat now sink p2
      (rec_out.1, msg :: rec_out.2)
    else
      Peer.poll_heartbeat now sink p1
  else
    (p, [])
termination_by
  (if p.last_send_time + HEARTBEAT_PERIOD_MS ≤ now then 1 else 0) +
    (if p.send_heartbeat_timeout ≤ now then 1 else 0)
decreasing_by
  all_goals simp only [HEARTBEAT_PERIOD_MS] at *
  all_goals repeat' split
  all_goals omega

/-- The outcome of one `Peer::poll` (`Stream::poll` on `Peer`):
data surfaced upward, graceful end-of-stream (`Ready(None)`), `NotReady`, or
an error. -/
inductive PollResult where
  | ready (data : List Nat)
  | eos
  | notReady
  | err (e : PeerError)
deriving DecidableEq, Repr

/-- The frame-processing loop of `Peer::poll` from `src/net/peer/mod.rs`,
after the heartbeat timer has been serviced.  Consumes stream events in
order: a read error maps to `PeerError::Read`; end-of-stream is surfaced;
a raw frame first resets the recv-inactivity timer to
`now + INACTIVITY_TIMEOUT_MS` and is then deserialised — failure yields
`PeerError::Deserialize`, a `HeartBeat` is swallowed and polling continues,
`Data` surfaces its bytes.  When the stream has nothing pending, the
recv-inactivity timer is polled: if it has fired the poll yields
`PeerError::InactivityTimeout`, otherwise `NotReady`. -/
def Peer.pollFrames (now : Nat) : Peer → List StreamEvent → PollResult × Peer
  | p, [] =>
      if p.recv_heartbeat_timeout ≤ now then (PollResult.err PeerError.InactivityTimeout, p)
      else (PollResult.notReady, p)
  | p, ev :: rest =>
      match ev with
      | StreamEvent.err e => (PollResult.err (PeerError.Read e), p)
      | StreamEvent.eos => (PollResult.eos, p)
      | StreamEvent.frame bytes =>
          let p1 : Peer := { p with recv_heartbeat_timeout := now + INACTIVITY_TIMEOUT_MS }
          match deserialise bytes with
          | none => (PollResult.err (PeerError.Deserialize 0), p1)
          | some PeerMsg.HeartBeat => Peer.pollFrames now p1 rest
          | some (PeerMsg.Data d) => (PollResult.ready d, p1)

/-- Method `Stream::poll` on `Peer` from `src/net/peer/mod.rs`: first service the
heartbeat timer (`poll_heartbeat`), then run the frame-processing loop on the
stream's pending events.  Returns the poll outcome, the updated peer, and the
heartbeat frames handed to the sink. -/
def Peer.poll (now : Nat) (sink : List Nat → SinkResult) (p : Peer)
    (events : List StreamEvent) : PollResult × Peer × List (List Nat) :=
  let hb := Peer.poll_heartbeat now sink p
  let out := Peer.pollFrames now hb.1 events
  (out.1, out.2, hb.2)

/-- The value returned by a successful `Sink::start_send` on `Peer`:
`AsyncSink::Ready`, or `AsyncSink::NotReady` carrying the payload back to
the caller. -/
inductive StartSendResult where
  | ready
  | notReady (data : List Nat)
deriving DecidableEq, Repr

/-- The full observable outcome of `Peer::start_send`: the serialised frame
handed to the stream's sink, the returned value (or error), and the updated
peer. -/
structure SendOutcome where
  handed : List Nat
  result : Except PeerError StartSendResult
  peer : Peer
deriving Repr

/-- Method `Sink::start_send` on `Peer` from `src/net/peer/mod.rs`: serialise the
payload as `PeerMsg::Data`, hand the frame to the stream's sink; on
acceptance set `last_send_time := now` and report ready; on back-pressure
report not-ready carrying the original payload back; a sink error propagates
as `PeerError::Write`. -/
def Peer.start_send (now : Nat) (sink : List Nat → SinkResult) (p : Peer)
    (data : List Nat) : SendOutcome :=
  let msg := serialise (PeerMsg.Data data)
  match sink msg with
  | SinkResult.ready =>
      { handed := msg
        result := Except.ok StartSendResult.ready
        peer := { p with last_send_time := now } }
  | SinkResult.notReady =>
      { handed := msg
        result := Except.ok (StartSendResult.notReady data)
        peer := p }
  | SinkResult.error e =>
      { handed := msg
        result := Except.error (PeerError.Write e)
        peer := p }

/-- Modelled from the spec: `BootstrapDenyReason` (declared in
`src/net/peer/connect/handshake_message.rs`, which is not among the provided
sources).  The spec lists exactly these four variants. -/
inductive BootstrapDenyReason where
  | NodeNotWhitelisted
  | ClientNotWhitelisted
  | FailedExternalReachability
  | InvalidNonce
deriving DecidableEq, Repr

/-- Modelled from the spec: `BootstrapRequest` (declared in
`src/net/peer/connect/handshake_message.rs`, which is not among the provided
sources).  The handshake engine carries it opaquely; the spec lists these
fields. -/
structure BootstrapRequest where
  claimed_identity : Nat
  reachability : Nat
  role : CrustUser
  nonce : List Nat
deriving DecidableEq, Repr

/-- Modelled from the spec: `HandshakeMessage` (declared in
`src/net/peer/connect/handshake_message.rs`, which is not among the provided
sources).  The spec lists exactly these three variants. -/
inductive HandshakeMessage where
  | BootstrapRequest (req : Crust.BootstrapRequest)
  | BootstrapGranted
  | BootstrapDenied (reason : BootstrapDenyReason)
deriving DecidableEq, Repr

/-- Enumeration `ConnectHandshakeError` from
`src/net/peer/connect/bootstrap/try_peer.rs`.  Foreign error payloads are
modelled as `Nat`. -/
inductive ConnectHandshakeError where
  | BootstrapDenied (reason : BootstrapDenyReason)
  | Io (e : Nat)
  | InvalidResponse
  | Read (e : Nat)
  | Write (e : Nat)
  | Disconnected
  | TimedOut
  | Encrypt (e : Nat)
  | Decrypt (e : Nat)
deriving DecidableEq, Repr

/-- The observable behaviour of the connected framed stream during the
handshake: the outcome of `send_serialized` (`none` = write succeeded,
`some e` = write error `e`), and the outcome of the single `recv_serialized`
(`Except.error e` = read error, `Except.ok none` = end-of-stream,
`Except.ok (some msg)` = one received frame). -/
structure HandshakeStream where
  sendResult : Option Nat
  recvResult : Except Nat (Option HandshakeMessage)

/-- The `with_timeout` combinator (from the external `future_utils` crate):
a future that resolves after `elapsed` ms races a timer of `limit` ms.
`some r` when the future resolves within the limit, `none` when the timer
expires first. -/
def with_timeout {α : Type} (limit elapsed : Nat) (r : α) : Option α :=
  if elapsed ≤ limit then some r else none

/-- The observable outcome of `bootstrap_connect_handshake`: the handshake
messages handed to the framed stream, and the result. -/
structure HsOutcome where
  sent : List HandshakeMessage
  result : Except ConnectHandshakeError Peer

/-- Function `bootstrap_connect_handshake` from
`src/net/peer/connect/bootstrap/try_peer.rs`: send
`HandshakeMessage::BootstrapRequest(request)` (a write failure maps to
`Write`), receive one frame (read error → `Read`, end-of-stream →
`Disconnected`), and interpret it (`BootstrapGranted` → a `Peer` built by
`from_handshaken_stream` with `CrustUser::Node`; `BootstrapDenied(reason)` →
`BootstrapDenied reason`; anything else → `InvalidResponse`).  The whole
future is wrapped in `with_timeout(9 s)`; expiry yields `TimedOut`.
`elapsed_ms` is the time at which the inner future resolves and `now` the
current instant at resolution. -/
def bootstrap_connect_handshake (now : Nat) (stream : HandshakeStream)
    (request : BootstrapRequest) (their_pk : Nat) (elapsed_ms : Nat) : HsOutcome :=
  let inner : Except ConnectHandshakeError Peer :=
    match stream.sendResult with
    | some e => Except.error (ConnectHandshakeError.Write e)
    | none =>
        match stream.recvResult with
        | Except.error e => Except.error (ConnectHandshakeError.Read e)
        | Except.ok none => Except.error ConnectHandshakeError.Disconnected
        | Except.ok (some HandshakeMessage.BootstrapGranted) =>
            Except.ok (from_handshaken_stream now their_pk CrustUser.Node)
        | Except.ok (some (HandshakeMessage.BootstrapDenied reason)) =>
            Except.error (ConnectHandshakeError.BootstrapDenied reason)
        | Except.ok (some _) => Except.error ConnectHandshakeError.InvalidResponse
  { sent := [HandshakeMessage.BootstrapRequest request]
    result :=
      match with_timeout 9000 elapsed_ms inner with
      | some r => r
      | none => Except.error ConnectHandshakeError.TimedOut }

/-- Enumeration `TryPeerError` from `src/net/peer/connect/bootstrap/try_peer.rs`.  The
`DirectConnectError` payload is modelled as `Nat`. -/
inductive TryPeerError where
  | TimedOut
  | Connect (e : Nat)
  | Handshake (e : ConnectHandshakeError)
deriving DecidableEq, Repr

/-- Function `try_peer` from `src/net/peer/connect/bootstrap/try_peer.rs`:
`PaStream::direct_connect` (outcome `connectResult`, resolving after
`connect_elapsed_ms`) is mapped through `TryPeerError::Connect` and wrapped
in `with_timeout(10 s)`; expiry yields `TryPeerError::TimedOut`.  On a
connected stream, `bootstrap_connect_handshake` runs and its error maps to
`TryPeerError::Handshake`. -/
def try_peer (now : Nat) (connectResult : Except Nat HandshakeStream)
    (connect_elapsed_ms : Nat) (request : BootstrapRequest) (their_pk : Nat)
    (hs_elapsed_ms : Nat) : Except TryPeerError Peer :=
  match with_timeout 10000 connect_elapsed_ms
      (connectResult.mapError TryPeerError.Connect) with
  | none => Except.error TryPeerError.TimedOut
  | some (Except.error e) => Except.error e
  | some (Except.ok stream) =>
      match (bootstrap_connect_handshake now stream request their_pk hs_elapsed_ms).result with
      | Except.error e => Except.error (TryPeerError.Handshake e)
      | Except.ok p => Except.ok p

theorem heartbeat_period_pos : 0 < HEARTBEAT_PERIOD_MS := by
  norm_num [HEARTBEAT_PERIOD_MS]

theorem poll_heartbeat_not_ready (now : Nat) (sink : List Nat → SinkResult) (p : Peer)
    (h : now < p.send_heartbeat_timeout) :
    Peer.poll_heartbeat now sink p = (p, []) := by
  unfold Peer.poll_heartbeat
  rw [dif_neg (by omega)]

theorem poll_heartbeat_skip (now : Nat) (sink : List Nat → SinkResult) (p : Peer)
    (h1 : p.send_heartbeat_timeout ≤ now)
    (h2 : now < p.last_send_time + HEARTBEAT_PERIOD_MS) :
    Peer.poll_heartbeat now sink p =
      ({ p with send_heartbeat_timeout := p.last_send_time + HEARTBEAT_PERIOD_MS }, []) := by
  have hper := heartbeat_period_pos
  unfold Peer.poll_heartbeat
  rw [dif_pos h1, dif_neg (by omega)]
  exact poll_heartbeat_not_ready now sink _ (by simp; omega)

theorem poll_heartbeat_fire (now : Nat) (sink : List Nat → SinkResult) (p : Peer)
    (h1 : p.send_heartbeat_timeout ≤ now)
    (h2 : p.last_send_time + HEARTBEAT_PERIOD_MS ≤ now) :
    Peer.poll_heartbeat now sink p =
      ({ p with last_send_time := now,
                send_heartbeat_timeout := now + HEARTBEAT_PERIOD_MS },
       [serialise PeerMsg.HeartBeat]) := by
  have hper := heartbeat_period_pos
  have hq := poll_heartbeat_skip now sink
      { p with last_send_time := now,
               send_heartbeat_timeout := p.last_send_time + HEARTBEAT_PERIOD_MS }
      (by simpa using h2) (by simp; omega)
  unfold Peer.poll_heartbeat
  rw [dif_pos h1, dif_pos (by omega)]
  show ((Peer.poll_heartbeat now sink
        { p with last_send_time := now,
                 send_heartbeat_timeout := p.last_send_time + HEARTBEAT_PERIOD_MS }).1,
      serialise PeerMsg.HeartBeat ::
        (Peer.poll_heartbeat now sink
          { p with last_send_time := now,
                   send_heartbeat_timeout := p.last_send_time + HEARTBEAT_PERIOD_MS }).2) = _
  rw [hq]

theorem poll_heartbeat_sink_eq (now : Nat) (sink1 sink2 : List Nat → SinkResult) (p : Peer) :
    Peer.poll_heartbeat now sink1 p = Peer.poll_heartbeat now sink2 p := by
  by_cases h1 : p.send_heartbeat_timeout ≤ now
  · by_cases h2 : p.last_send_time + HEARTBEAT_PERIOD_MS ≤ now
    · rw [poll_heartbeat_fire now sink1 p h1 h2, poll_heartbeat_fire now sink2 p h1 h2]
    · rw [poll_heartbeat_skip now sink1 p h1 (by omega),
        poll_heartbeat_skip now sink2 p h1 (by omega)]
  · rw [poll_heartbeat_not_ready now sink1 p (by omega),
      poll_heartbeat_not_ready now sink2 p (by omega)]

/-- A helper: the frame handed to the sink by `Peer.start_send` is always the
serialised `Data` frame, whatever the sink answers. -/
theorem start_send_handed (now : Nat) (sink : List Nat → SinkResult) (p : Peer)
    (data : List Nat) :
    (Peer.start_send now sink p data).handed = serialise (PeerMsg.Data data) := by
  rcases h : sink (serialise (PeerMsg.Data data)) with _ | _ | e <;>
    simp [Peer.start_send, h]

/-- A helper: every error produced by the frame-processing loop is either the
self-synthesized `InactivityTimeout`, a self-synthesized `Deserialize`, or
wraps a read error yielded by the stream itself. -/
theorem pollFrames_err_cases (now : Nat) (er : PeerError) (events : List StreamEvent) :
    ∀ q : Peer, (Peer.pollFrames now q events).1 = PollResult.err er →
      er = PeerError.InactivityTimeout ∨ (∃ e, er = PeerError.Deserialize e) ∨
        ∃ e, StreamEvent.err e ∈ events ∧ er = PeerError.Read e := by
  induction events with
  | nil =>
      intro q h
      by_cases hr : q.recv_heartbeat_timeout ≤ now
      · left
        simp only [Peer.pollFrames, if_pos hr, PollResult.err.injEq] at h
        exact h.symm
      · simp only [Peer.pollFrames, if_neg hr] at h
        exact absurd h (by simp)
  | cons ev rest ih =>
      intro q h
      cases ev with
      | err e =>
          right; right
          refine ⟨e, List.mem_cons_self _ _, ?_⟩
          simp only [Peer.pollFrames, PollResult.err.injEq] at h
          exact h.symm
      | eos => exact absurd h (by simp [Peer.pollFrames])
      | frame bytes =>
          cases hd : deserialise bytes with
          | none =>
              right; left
              refine ⟨0, ?_⟩
              simp only [Peer.pollFrames, hd, PollResult.err.injEq] at h
              exact h.symm
          | some m =>
              cases m with
              | HeartBeat =>
                  simp only [Peer.pollFrames, hd] at h
                  rcases ih _ h with h1 | h2 | ⟨e, hmem, he⟩
                  · exact Or.inl h1
                  · exact Or.inr (Or.inl h2)
                  · exact Or.inr (Or.inr ⟨e, List.mem_cons_of_mem _ hmem, he⟩)
              | Data d => exact absurd h (by simp [Peer.pollFrames, hd])

/-- A concrete always-accepting sink. -/
def sinkReady : List Nat → SinkResult := fun _ => SinkResult.ready

/-- A concrete always-failing sink. -/
def sinkBroken : List Nat → SinkResult := fun _ => SinkResult.error 3

/-- A concrete bootstrap request used in witnesses. -/
def req0 : BootstrapRequest :=
  { claimed_identity := 0, reachability := 0, role := CrustUser.Node, nonce := [] }

/-- A concrete peer whose send-heartbeat timer has not yet fired at `now = 0`. -/
def peerIdle : Peer :=
  { their_uid := 0, kind := CrustUser.Node, last_send_time := 0,
    send_heartbeat_timeout := 1, recv_heartbeat_timeout := 1000 }

/-- A concrete peer whose send-heartbeat timer has fired at `now = 20000` and
whose last send is a full heartbeat period in the past. -/
def peerDue : Peer :=
  { their_uid := 0, kind := CrustUser.Node, last_send_time := 0,
    send_heartbeat_timeout := 0, recv_heartbeat_timeout := 500000 }

/-- C1: for every connected framed stream whose write succeeds and that
resolves within the handshake timeout, `bootstrap_connect_handshake` sends
exactly the `BootstrapRequest` and interprets exactly one received frame:
end-of-stream yields `Disconnected`; `BootstrapGranted` yields a new session
whose role is `Node`; `BootstrapDenied reason` yields
`BootstrapDenied reason`; any other variant (necessarily a
`BootstrapRequest`) yields `InvalidResponse`. -/
theorem handshake_interprets_one_frame (now : Nat) (st : HandshakeStream)
    (req : BootstrapRequest) (pk elapsed : Nat)
    (hsend : st.sendResult = none) (htime : elapsed ≤ 9000) :
    (bootstrap_connect_handshake now st req pk elapsed).sent
        = [HandshakeMessage.BootstrapRequest req]
    ∧ (st.recvResult = Except.ok none →
        (bootstrap_connect_handshake now st req pk elapsed).result
          = Except.error ConnectHandshakeError.Disconnected)
    ∧ (st.recvResult = Except.ok (some HandshakeMessage.BootstrapGranted) →
        (bootstrap_connect_handshake now st req pk elapsed).result
          = Except.ok (from_handshaken_stream now pk CrustUser.Node)
        ∧ (from_handshaken_stream now pk CrustUser.Node).kind = CrustUser.Node)
    ∧ (∀ r, st.recvResult = Except.ok (some (HandshakeMessage.BootstrapDenied r)) →
        (bootstrap_connect_handshake now st req pk elapsed).result
          = Except.error (ConnectHandshakeError.BootstrapDenied r))
    ∧ (∀ r', st.recvResult = Except.ok (some (HandshakeMessage.BootstrapRequest r')) →
        (bootstrap_connect_handshake now st req pk elapsed).result
          = Except.error ConnectHandshakeError.InvalidResponse) := by
  refine ⟨rfl, ?_, ?_, ?_, ?_⟩ <;>
    first
      | (intro h; simp [bootstrap_connect_handshake, with_timeout, hsend, h, htime,
          from_handshaken_stream])
      | (intro r h; simp [bootstrap_connect_handshake, with_timeout, hsend, h, htime])

/-- C1 witness: a stream answering `BootstrapGranted` within the timeout
yields a `Node` session. -/
theorem handshake_interprets_one_frame_witness :
    (({ sendResult := none,
        recvResult := Except.ok (some HandshakeMessage.BootstrapGranted) } :
          HandshakeStream)).sendResult = none
    ∧ (0 : Nat) ≤ 9000
    ∧ (bootstrap_connect_handshake 0
        { sendResult := none,
          recvResult := Except.ok (some HandshakeMessage.BootstrapGranted) }
        req0 7 0).result = Except.ok (from_handshaken_stream 0 7 CrustUser.Node)
    ∧ (from_handshaken_stream 0 7 CrustUser.Node).kind = CrustUser.Node :=
  ⟨rfl, by norm_num,
    (handshake_interprets_one_frame 0
      { sendResult := none,
        recvResult := Except.ok (some HandshakeMessage.BootstrapGranted) }
      req0 7 0 rfl (by norm_num)).2.2.1 rfl⟩

/-- C2: when the 9-second handshake timeout expires, the handshake yields
`TimedOut` and no session is constructed, whatever the stream did. -/
theorem handshake_timeout_yields_timed_out (now : Nat) (st : HandshakeStream)
    (req : BootstrapRequest) (pk elapsed : Nat) (h : 9000 < elapsed) :
    (bootstrap_connect_handshake now st req pk elapsed).result
        = Except.error ConnectHandshakeError.TimedOut
    ∧ ∀ p, (bootstrap_connect_handshake now st req pk elapsed).result
        ≠ Except.ok p := by
  have hmain : (bootstrap_connect_handshake now st req pk elapsed).result
      = Except.error ConnectHandshakeError.TimedOut := by
    simp [bootstrap_connect_handshake, with_timeout, if_neg (by omega : ¬ elapsed ≤ 9000)]
  exact ⟨hmain, fun p hp => by rw [hmain] at hp; exact absurd hp (by simp)⟩

/-- C2 witness: at 9001 ms even a granted reply is turned into `TimedOut`. -/
theorem handshake_timeout_yields_timed_out_witness :
    (9000 : Nat) < 9001
    ∧ (bootstrap_connect_handshake 0
        { sendResult := none,
          recvResult := Except.ok (some HandshakeMessage.BootstrapGranted) }
        req0 7 9001).result = Except.error ConnectHandshakeError.TimedOut :=
  ⟨by norm_num,
    (handshake_timeout_yields_timed_out 0
      { sendResult := none,
        recvResult := Except.ok (some HandshakeMessage.BootstrapGranted) }
      req0 7 9001 (by norm_num)).1⟩

/-- C3: for a single connection attempt, expiry of the 10-second connect
timeout yields `TryPeerError.TimedOut`; a transport connect failure within
the window yields `TryPeerError.Connect` carrying the transport error; and a
handshake failure yields `TryPeerError.Handshake` carrying the handshake
error. -/
theorem try_peer_error_mapping (now : Nat) (cr : Except Nat HandshakeStream)
    (ce : Nat) (req : BootstrapRequest) (pk he : Nat) :
    (10000 < ce → try_peer now cr ce req pk he = Except.error TryPeerError.TimedOut)
    ∧ (∀ e, ce ≤ 10000 → cr = Except.error e →
        try_peer now cr ce req pk he = Except.error (TryPeerError.Connect e))
    ∧ (∀ st e, ce ≤ 10000 → cr = Except.ok st →
        (bootstrap_connect_handshake now st req pk he).result = Except.error e →
        try_peer now cr ce req pk he = Except.error (TryPeerError.Handshake e)) := by
  refine ⟨?_, ?_, ?_⟩
  · intro h
    simp [try_peer, with_timeout, if_neg (by omega : ¬ ce ≤ 10000)]
  · intro e hce hcr
    simp [try_peer, with_timeout, if_pos hce, hcr, Except.mapError]
  · intro st e hce hcr hhs
    simp [try_peer, with_timeout, if_pos hce, hcr, Except.mapError, hhs]

/-- C3 witness: a connect attempt resolving at 10001 ms is reported as
`TimedOut`, and a transport failure at 5 ms is reported as `Connect`. -/
theorem try_peer_error_mapping_witness :
    (10000 : Nat) < 10001
    ∧ try_peer 0 (Except.error 42) 10001 req0 7 0
        = Except.error TryPeerError.TimedOut
    ∧ ((5 : Nat) ≤ 10000
        ∧ try_peer 0 (Except.error 42) 5 req0 7 0
            = Except.error (TryPeerError.Connect 42)) :=
  ⟨by norm_num,
    (try_peer_error_mapping 0 (Except.error 42) 10001 req0 7 0).1 (by norm_num),
    by norm_num,
    (try_peer_error_mapping 0 (Except.error 42) 5 req0 7 0).2.1 42 (by norm_num) rfl⟩

/-- C4: `start_send` serialises the payload as a `Data` frame and hands it to
the framed stream; on acceptance `last_send_time` is set to `now` and the
send reports ready; on back-pressure the send reports not-ready carrying back
exactly the original payload bytes and the peer state is unchanged. -/
theorem start_send_behaviour (now : Nat) (sink : List Nat → SinkResult) (p : Peer)
    (data : List Nat) :
    (Peer.start_send now sink p data).handed = serialise (PeerMsg.Data data)
    ∧ (sink (serialise (PeerMsg.Data data)) = SinkResult.ready →
        (Peer.start_send now sink p data).result = Except.ok StartSendResult.ready
        ∧ (Peer.start_send now sink p data).peer
            = { p with last_send_time := now })
    ∧ (sink (serialise (PeerMsg.Data data)) = SinkResult.notReady →
        (Peer.start_send now sink p data).result
            = Except.ok (StartSendResult.notReady data)
        ∧ (Peer.start_send now sink p data).peer = p) := by
  refine ⟨start_send_handed now sink p data, ?_, ?_⟩ <;>
    · intro h
      constructor <;> simp [Peer.start_send, h]

/-- C4 witness: an accepting sink makes `start_send` report ready and stamp
`last_send_time`, and (separately computed) a back-pressuring sink returns
the payload. -/
theorem start_send_behaviour_witness :
    sinkReady (serialise (PeerMsg.Data [1, 2, 3])) = SinkResult.ready
    ∧ (Peer.start_send 5 sinkReady peerIdle [1, 2, 3]).result
        = Except.ok StartSendResult.ready
    ∧ (Peer.start_send 5 sinkReady peerIdle [1, 2, 3]).peer
        = { peerIdle with last_send_time := 5 } :=
  ⟨rfl,
    ((start_send_behaviour 5 sinkReady peerIdle [1, 2, 3]).2.1 rfl).1,
    ((start_send_behaviour 5 sinkReady peerIdle [1, 2, 3]).2.1 rfl).2⟩

/-- C5: on each receive poll the heartbeat timer is serviced first and only
then is the stream polled (the poll is exactly the frame loop run on the
heartbeat-serviced state); a received `Heartbeat` frame resets the
inactivity timer and is not surfaced (polling continues); a received `Data`
frame resets the inactivity timer and surfaces its bytes; end-of-stream
surfaces the stream terminator; and when the stream has nothing pending and
the inactivity timer has fired, the poll yields `InactivityTimeout`. -/
theorem poll_tick_behaviour (now : Nat) (sink : List Nat → SinkResult) (p : Peer)
    (events : List StreamEvent) :
    Peer.poll now sink p events
      = ((Peer.pollFrames now (Peer.poll_heartbeat now sink p).1 events).1,
         (Peer.pollFrames now (Peer.poll_heartbeat now sink p).1 events).2,
         (Peer.poll_heartbeat now sink p).2)
    ∧ (∀ (q : Peer) (bytes : List Nat) (rest : List StreamEvent),
        deserialise bytes = some PeerMsg.HeartBeat →
        Peer.pollFrames now q (StreamEvent.frame bytes :: rest)
          = Peer.pollFrames now
              { q with recv_heartbeat_timeout := now + INACTIVITY_TIMEOUT_MS } rest)
    ∧ (∀ (q : Peer) (bytes d : List Nat) (rest : List StreamEvent),
        deserialise bytes = some (PeerMsg.Data d) →
        Peer.pollFrames now q (StreamEvent.frame bytes :: rest)
          = (PollResult.ready d,
             { q with recv_heartbeat_timeout := now + INACTIVITY_TIMEOUT_MS }))
    ∧ (∀ (q : Peer) (rest : List StreamEvent),
        Peer.pollFrames now q (StreamEvent.eos :: rest) = (PollResult.eos, q))
    ∧ (∀ q : Peer, q.recv_heartbeat_timeout ≤ now →
        Peer.pollFrames now q [] = (PollResult.err PeerError.InactivityTimeout, q)) := by
  refine ⟨rfl, ?_, ?_, ?_, ?_⟩
  · intro q bytes rest h
    simp [Peer.pollFrames, h]
  · intro q bytes d rest h
    simp [Peer.pollFrames, h]
  · intro q rest
    simp [Peer.pollFrames]
  · intro q h
    simp [Peer.pollFrames, if_pos h]

/-- C5 witness: a serialised heartbeat frame is swallowed while resetting the
inactivity timer, a serialised data frame surfaces its bytes, and with no
pending events an expired inactivity timer yields `InactivityTimeout` (at
`now = 2000 > 1000`, the deadline of `peerIdle`). -/
theorem poll_tick_behaviour_witness :
    deserialise (serialise PeerMsg.HeartBeat) = some PeerMsg.HeartBeat
    ∧ Peer.pollFrames 2000 peerIdle [StreamEvent.frame (serialise PeerMsg.HeartBeat)]
        = Peer.pollFrames 2000
            { peerIdle with recv_heartbeat_timeout := 2000 + INACTIVITY_TIMEOUT_MS } []
    ∧ peerIdle.recv_heartbeat_timeout ≤ 2000
    ∧ Peer.pollFrames 2000 peerIdle []
        = (PollResult.err PeerError.InactivityTimeout, peerIdle) :=
  ⟨by decide,
    (poll_tick_behaviour 2000 sinkReady peerIdle []).2.1 peerIdle
      (serialise PeerMsg.HeartBeat) [] (by decide),
    by decide,
    (poll_tick_behaviour 2000 sinkReady peerIdle []).2.2.2.2 peerIdle (by decide)⟩

/-- C6: whenever the send-heartbeat timer has elapsed, servicing it either
(if `now − last_send_time ≥ HEARTBEAT_PERIOD_MS`) hands exactly one
heartbeat frame to the sink, updates `last_send_time` to `now` and leaves
the timer at the new `last_send_time + HEARTBEAT_PERIOD_MS`, or (otherwise)
hands no frame, keeps `last_send_time`, and resets the timer to
`last_send_time + HEARTBEAT_PERIOD_MS`; in both cases after servicing the
deadline is `last_send_time + HEARTBEAT_PERIOD_MS` or earlier. -/
theorem heartbeat_timer_service (now : Nat) (sink : List Nat → SinkResult)
    (p : Peer) (h : p.send_heartbeat_timeout ≤ now) :
    (p.last_send_time + HEARTBEAT_PERIOD_MS ≤ now →
      (Peer.poll_heartbeat now sink p).2 = [serialise PeerMsg.HeartBeat]
      ∧ (Peer.poll_heartbeat now sink p).1.last_send_time = now
      ∧ (Peer.poll_heartbeat now sink p).1.send_heartbeat_timeout
          = (Peer.poll_heartbeat now sink p).1.last_send_time + HEARTBEAT_PERIOD_MS)
    ∧ (now < p.last_send_time + HEARTBEAT_PERIOD_MS →
      (Peer.poll_heartbeat now sink p).2 = []
      ∧ (Peer.poll_heartbeat now sink p).1.last_send_time = p.last_send_time
      ∧ (Peer.poll_heartbeat now sink p).1.send_heartbeat_timeout
          = p.last_send_time + HEARTBEAT_PERIOD_MS)
    ∧ (Peer.poll_heartbeat now sink p).1.send_heartbeat_timeout
        ≤ (Peer.poll_heartbeat now sink p).1.last_send_time + HEARTBEAT_PERIOD_MS := by
  by_cases h2 : p.last_send_time + HEARTBEAT_PERIOD_MS ≤ now
  · rw [poll_heartbeat_fire now sink p h h2]
    refine ⟨fun _ => ⟨rfl, rfl, rfl⟩, fun hc => absurd h2 (by omega), by simp⟩
  · rw [poll_heartbeat_skip now sink p h (by omega)]
    exact ⟨fun hc => absurd hc h2, fun _ => ⟨rfl, rfl, rfl⟩, by simp⟩

/-- C6 witness: for `peerDue` at `now = 20000` (timer fired, a full period
since the last send) exactly one heartbeat is handed over, `last_send_time`
becomes `20000`, and the deadline is the new `last_send_time` plus the
period. -/
theorem heartbeat_timer_service_witness :
    peerDue.send_heartbeat_timeout ≤ 20000
    ∧ peerDue.last_send_time + HEARTBEAT_PERIOD_MS ≤ 20000
    ∧ (Peer.poll_heartbeat 20000 sinkReady peerDue).2 = [serialise PeerMsg.HeartBeat]
    ∧ (Peer.poll_heartbeat 20000 sinkReady peerDue).1.last_send_time = 20000
    ∧ (Peer.poll_heartbeat 20000 sinkReady peerDue).1.send_heartbeat_timeout
        = (Peer.poll_heartbeat 20000 sinkReady peerDue).1.last_send_time
            + HEARTBEAT_PERIOD_MS :=
  ⟨by decide, by decide,
    (heartbeat_timer_service 20000 sinkReady peerDue (by decide)).1 (by decide)⟩

/-- C7: for every byte string `b` (of machine-representable length), the
serialise-then-deserialise composition of a `Data` frame is the identity on
the payload, and the bytes handed to the stream by `start_send` are
surfaced byte-for-byte by the receiving side's frame loop. -/
theorem data_roundtrip (b : List Nat) (hb : b.length < 256 ^ 8)
    (now now' : Nat) (sink : List Nat → SinkResult) (p q : Peer) :
    deserialise (serialise (PeerMsg.Data b)) = some (PeerMsg.Data b)
    ∧ (Peer.pollFrames now q
        [StreamEvent.frame ((Peer.start_send now' sink p b).handed)]).1
        = PollResult.ready b := by
  have hrt : deserialise (serialise (PeerMsg.Data b)) = some (PeerMsg.Data b) :=
    deserialise_serialise (PeerMsg.Data b) (by rintro bs ⟨rfl⟩; exact hb)
  refine ⟨hrt, ?_⟩
  rw [start_send_handed now' sink p b]
  simp [Peer.pollFrames, hrt]

/-- C7 witness: the payload `[1, 2, 3]` survives the send/receive
composition byte-for-byte. -/
theorem data_roundtrip_witness :
    ([1, 2, 3] : List Nat).length < 256 ^ 8
    ∧ deserialise (serialise (PeerMsg.Data [1, 2, 3])) = some (PeerMsg.Data [1, 2, 3])
    ∧ (Peer.pollFrames 0 peerIdle
        [StreamEvent.frame ((Peer.start_send 0 sinkReady peerIdle [1, 2, 3]).handed)]).1
        = PollResult.ready [1, 2, 3] :=
  ⟨by norm_num,
    (data_roundtrip [1, 2, 3] (by norm_num) 0 0 sinkReady peerIdle peerIdle).1,
    (data_roundtrip [1, 2, 3] (by norm_num) 0 0 sinkReady peerIdle peerIdle).2⟩

/-- An error reported by the receive poll originates from the underlying
framed stream: it wraps a read error that the stream itself yielded. -/
def pollErrorFromStream (events : List StreamEvent) (er : PeerError) : Prop :=
  ∃ e, StreamEvent.err e ∈ events ∧ er = PeerError.Read e

/-- The claim that `InactivityTimeout` is the only error the session itself
synthesizes: every other error value yielded by a poll or a send originates
from the underlying framed stream (wraps an error the stream yielded) rather
than being constructed inside the session. -/
def onlyInactivityTimeoutSynthesized : Prop :=
  (∀ (now : Nat) (sink : List Nat → SinkResult) (p : Peer)
      (events : List StreamEvent) (er : PeerError),
      (Peer.poll now sink p events).1 = PollResult.err er →
      er = PeerError.InactivityTimeout ∨ pollErrorFromStream events er)
  ∧ (∀ (now : Nat) (sink : List Nat → SinkResult) (p : Peer)
      (data : List Nat) (er : PeerError),
      (Peer.start_send now sink p data).result = Except.error er →
      ∃ e, sink (serialise (PeerMsg.Data data)) = SinkResult.error e
        ∧ er = PeerError.Write e)

/-- A helper: at `now = 0` the heartbeat timer of `peerIdle` (deadline 1) has
not fired, so its poll is exactly the frame loop. -/
theorem poll_peerIdle_zero (sink : List Nat → SinkResult) (events : List StreamEvent) :
    Peer.poll 0 sink peerIdle events
      = ((Peer.pollFrames 0 peerIdle events).1, (Peer.pollFrames 0 peerIdle events).2, []) := by
  unfold Peer.poll
  rw [poll_heartbeat_not_ready 0 sink peerIdle (by decide)]

/-- C8 counterexample: the claim is false on the code.  A stream that yields
one well-formed read of garbage bytes (no stream error at all) makes the
poll return `PeerError.Deserialize`, an error the session constructs itself:
it is neither `InactivityTimeout` nor a wrapper of any stream-yielded
error. -/
theorem only_inactivity_synthesized_false : ¬ onlyInactivityTimeoutSynthesized := by
  intro hcl
  have heval : (Peer.poll 0 sinkReady peerIdle [StreamEvent.frame [9]]).1
      = PollResult.err (PeerError.Deserialize 0) := by
    rw [poll_peerIdle_zero]
    decide
  rcases hcl.1 0 sinkReady peerIdle [StreamEvent.frame [9]]
      (PeerError.Deserialize 0) heval with h | ⟨e, hmem, _⟩
  · exact absurd h (by decide)
  · simp at hmem

/-- C8 amended: `InactivityTimeout` and `Deserialize` are the only errors the
session itself synthesizes; every other error yielded by a session's poll
wraps a read error yielded by the underlying stream, and every error yielded
by a send wraps a write error yielded by the stream's sink. -/
theorem session_synthesized_errors (now : Nat) (sink : List Nat → SinkResult)
    (p : Peer) (events : List StreamEvent) (er : PeerError) :
    ((Peer.poll now sink p events).1 = PollResult.err er →
      er = PeerError.InactivityTimeout ∨ (∃ e, er = PeerError.Deserialize e)
        ∨ pollErrorFromStream events er)
    ∧ (∀ (data : List Nat) (er' : PeerError),
        (Peer.start_send now sink p data).result = Except.error er' →
        ∃ e, sink (serialise (PeerMsg.Data data)) = SinkResult.error e
          ∧ er' = PeerError.Write e) := by
  constructor
  · intro h
    exact pollFrames_err_cases now er events (Peer.poll_heartbeat now sink p).1 h
  · intro data er' h
    rcases hs : sink (serialise (PeerMsg.Data data)) with _ | _ | e <;>
      simp [Peer.start_send, hs] at h
    exact ⟨e, rfl, h.symm⟩

/-- C8 amended witness: a read error yielded by the stream surfaces wrapped
as `PeerError.Read`, and the amended taxonomy classifies it as
stream-originated. -/
theorem session_synthesized_errors_witness :
    (Peer.poll 0 sinkReady peerIdle [StreamEvent.err 5]).1
        = PollResult.err (PeerError.Read 5)
    ∧ (PeerError.Read 5 = PeerError.InactivityTimeout
        ∨ (∃ e, PeerError.Read 5 = PeerError.Deserialize e)
        ∨ pollErrorFromStream [StreamEvent.err 5] (PeerError.Read 5)) := by
  have heval : (Peer.poll 0 sinkReady peerIdle [StreamEvent.err 5]).1
      = PollResult.err (PeerError.Read 5) := by
    rw [poll_peerIdle_zero]
    decide
  exact ⟨heval,
    (session_synthesized_errors 0 sinkReady peerIdle [StreamEvent.err 5]
      (PeerError.Read 5)).1 heval⟩

/-- C9: every raw frame received from the stream resets the recv-inactivity
timer to `now + INACTIVITY_TIMEOUT_MS` before the frame is deserialised, so
even a frame that fails to deserialise (yielding the `Deserialize` error)
still resets the inactivity timer. -/
theorem frame_resets_timer_before_deserialise (now : Nat) (q : Peer)
    (bytes : List Nat) (rest : List StreamEvent) (h : deserialise bytes = none) :
    Peer.pollFrames now q (StreamEvent.frame bytes :: rest)
      = (PollResult.err (PeerError.Deserialize 0),
         { q with recv_heartbeat_timeout := now + INACTIVITY_TIMEOUT_MS }) := by
  simp [Peer.pollFrames, h]

/-- C9 witness: the garbage frame `[9]` fails to deserialise yet the
resulting peer state carries the freshly reset inactivity deadline. -/
theorem frame_resets_timer_before_deserialise_witness :
    deserialise [9] = none
    ∧ Peer.pollFrames 7 peerIdle [StreamEvent.frame [9]]
        = (PollResult.err (PeerError.Deserialize 0),
           { peerIdle with recv_heartbeat_timeout := 7 + INACTIVITY_TIMEOUT_MS }) :=
  ⟨by decide, frame_resets_timer_before_deserialise 7 peerIdle [9] [] (by decide)⟩

/-- C10: when the heartbeat timer fires and a heartbeat frame is handed to
the stream, the sink's answer is discarded: servicing the timer produces the
same state and the same single handed frame whatever the sink answers, the
heartbeat is not retried, `last_send_time` is updated regardless, and the
receive poll's outcome is independent of the sink (no error is surfaced for
a failed heartbeat enqueue). -/
theorem heartbeat_send_failure_discarded (now : Nat)
    (sink1 sink2 : List Nat → SinkResult) (p : Peer)
    (h1 : p.send_heartbeat_timeout ≤ now)
    (h2 : p.last_send_time + HEARTBEAT_PERIOD_MS ≤ now) :
    Peer.poll_heartbeat now sink1 p = Peer.poll_heartbeat now sink2 p
    ∧ (Peer.poll_heartbeat now sink1 p).2 = [serialise PeerMsg.HeartBeat]
    ∧ (Peer.poll_heartbeat now sink1 p).1.last_send_time = now
    ∧ ∀ events, (Peer.poll now sink1 p events).1 = (Peer.poll now sink2 p events).1 := by
  refine ⟨poll_heartbeat_sink_eq now sink1 sink2 p, ?_, ?_, ?_⟩
  · rw [poll_heartbeat_fire now sink1 p h1 h2]
  · rw [poll_heartbeat_fire now sink1 p h1 h2]
  · intro events
    unfold Peer.poll
    rw [poll_heartbeat_sink_eq now sink1 sink2 p]

/-- C10 witness: for `peerDue` at `now = 20000`, a failing sink and an
accepting sink produce identical servicing results, one handed frame, and
an updated `last_send_time`. -/
theorem heartbeat_send_failure_discarded_witness :
    peerDue.send_heartbeat_timeout ≤ 20000
    ∧ peerDue.last_send_time + HEARTBEAT_PERIOD_MS ≤ 20000
    ∧ Peer.poll_heartbeat 20000 sinkBroken peerDue
        = Peer.poll_heartbeat 20000 sinkReady peerDue
    ∧ (Peer.poll_heartbeat 20000 sinkBroken peerDue).2 = [serialise PeerMsg.HeartBeat]
    ∧ (Peer.poll_heartbeat 20000 sinkBroken peerDue).1.last_send_time = 20000 :=
  ⟨by decide, by decide,
    (heartbeat_send_failure_discarded 20000 sinkBroken sinkReady peerDue
      (by decide) (by decide)).1,
    (heartbeat_send_failure_discarded 20000 sinkBroken sinkReady peerDue
      (by decide) (by decide)).2.1,
    (heartbeat_send_failure_discarded 20000 sinkBroken sinkReady peerDue
      (by decide) (by decide)).2.2.1⟩

end Crust
